import Mathlib

/-!
Shallow embedding of the CloudView multi-source resource-aggregation engine
(Go sources under pkg/models, pkg/types, pkg/providers and
pkg/providers/aws), together with theorems settling the specification
claims about it.

Conventions of the embedding:
* Go `time.Time` values are modelled as `Int` instants; `t.Before u` is
  `t < u` and `t.After u` is `t > u`.
* Go maps used as string-keyed dictionaries (`Tags`, the registry's
  provider map) are modelled as association lists; `map[k]` lookup is
  `List.lookup`.
* Fallible Go functions returning `(T, error)` are modelled as
  `Except String T`.
* The concurrent fan-out of `AWSProvider.GetResources` is modelled by
  passing the per-collector outcomes (each an `Except String (List Resource)`,
  listed in arrival order at the fan-in loop) as an explicit argument.
-/

/-- Model of `models.ResourceStatus` (pkg/models/common.go): the state
string, the derived health string and the last-checked instant. -/
structure ResourceStatus where
  state : String
  health : String
  lastChecked : Int
deriving DecidableEq, Repr

/-- Model of `models.Resource` (pkg/models/resource.go). `Metadata` and
`Cost` are omitted: no filter predicate or aggregation path examined here
reads them. `Tags` is an association list standing for the Go
`map[string]string`. -/
structure Resource where
  id : String
  name : String
  type : String
  provider : String
  region : String
  status : ResourceStatus
  tags : List (String × String)
  createdAt : Int
  updatedAt : Int
deriving DecidableEq, Repr

/-- Model of `Resource.GetTag` (pkg/models/resource.go): map lookup
returning the value and a presence flag, here an `Option`. -/
def Resource.GetTag (r : Resource) (key : String) : Option String :=
  r.tags.lookup key

/-- Model of `types.ResourceFilters` (pkg/types/filters.go). -/
structure ResourceFilters where
  regions : List String
  resourceTypes : List String
  tags : List (String × String)
  status : List String
  createdAfter : Option Int
  createdBefore : Option Int
deriving DecidableEq, Repr

/-- The all-empty filter set: every dimension unconstrained. -/
def emptyFilters : ResourceFilters :=
  { regions := [], resourceTypes := [], tags := [], status := [],
    createdAfter := none, createdBefore := none }

/-- Model of Go `strings.EqualFold` restricted to the ASCII strings the
collectors compare against: case-insensitive equality. -/
def equalFold (a b : String) : Bool :=
  a.toLower == b.toLower

/-- The tag clause shared by the collectors' `matchesFilters` bodies: for
every `(k,v)` pair in the filter's tag map, the resource must have tag `k`
with value exactly `v` (`GetTag` missing or mismatched fails). -/
def tagsClause (resource : Resource) (filters : ResourceFilters) : Bool :=
  filters.tags.all fun kv =>
    match resource.GetTag kv.1 with
    | some v => v == kv.2
    | none => false

/-- The region clause shared by the S3 and RDS `matchesFilters` bodies:
if the filter's region list is non-empty, `resource.Region` must equal one
of its members. -/
def regionsClause (resource : Resource) (filters : ResourceFilters) : Bool :=
  filters.regions.isEmpty || filters.regions.any fun region => resource.region == region

/-- The creation-time clauses shared by every collector's `matchesFilters`
body: reject when `CreatedAfter` is set and `resource.CreatedAt.Before` it,
and when `CreatedBefore` is set and `resource.CreatedAt.After` it. -/
def createdClause (resource : Resource) (filters : ResourceFilters) : Bool :=
  (match filters.createdAfter with
   | some t => !(resource.createdAt < t)
   | none => true) &&
  (match filters.createdBefore with
   | some t => !(resource.createdAt > t)
   | none => true)

namespace EC2Service

/-- Model of `EC2Service.matchesFilters` (pkg/providers/aws/ec2.go,
lines 219-244): a resource-type clause over the EC2 aliases and the two
creation-time clauses. There is no region, tag or status clause in the
source body. -/
def matchesFilters (resource : Resource) (filters : ResourceFilters) : Bool :=
  (filters.resourceTypes.isEmpty ||
    filters.resourceTypes.any fun rt =>
      equalFold rt "ec2" || equalFold rt "instance" || equalFold rt "virtual_machine") &&
  createdClause resource filters

/-- Model of `EC2Service.mapInstanceHealthToHealth`
(pkg/providers/aws/ec2.go, lines 247-262): the EC2 instance-state enum is
a string-valued type, so the switch is a match on the state string. -/
def mapInstanceHealthToHealth (state : String) : String :=
  if state == "running" then "healthy"
  else if state == "stopped" || state == "stopping" then "unhealthy"
  else if state == "pending" then "warning"
  else if state == "terminated" then "unhealthy"
  else if state == "shutting-down" then "warning"
  else "unknown"

/-- The state strings named in `mapInstanceHealthToHealth`'s switch cases:
its per-kind mapping table. -/
def instanceStateTable : List String :=
  ["running", "stopped", "stopping", "pending", "terminated", "shutting-down"]

/-- Model of `EC2Service.getRegionsToQuery` (pkg/providers/aws/ec2.go,
lines 265-284): filters' regions, else the config's region list
(`config.GetRegions()`), else the config's single `Region`, else
`us-east-1`. -/
def getRegionsToQuery (filterRegions configRegions : List String)
    (configRegion : String) : List String :=
  if filterRegions.length > 0 then filterRegions
  else if configRegions.length > 0 then configRegions
  else if configRegion != "" then [configRegion]
  else ["us-east-1"]

/-- Model of one `types.Filter` entry built by `buildEC2Filters`: a filter
name and its value list. -/
structure EC2Filter where
  name : String
  values : List String
deriving DecidableEq, Repr

/-- Model of `EC2Service.buildEC2Filters` (pkg/providers/aws/ec2.go,
lines 196-216): the status filter is pushed into the server-side API
filter list (as `instance-state-name`), followed by one `tag:k` filter per
filter tag. -/
def buildEC2Filters (filters : ResourceFilters) : List EC2Filter :=
  (if filters.status.length > 0 then
    [{ name := "instance-state-name", values := filters.status }]
   else []) ++
  filters.tags.map fun kv => { name := "tag:" ++ kv.1, values := [kv.2] }

end EC2Service

namespace S3Service

/-- Model of `S3Service.matchesFilters` (pkg/providers/aws/s3.go,
lines 275-321): resource-type clause over the S3 aliases, region clause,
tag clause, creation-time clauses. There is no status clause in the
source body. -/
def matchesFilters (resource : Resource) (filters : ResourceFilters) : Bool :=
  (filters.resourceTypes.isEmpty ||
    filters.resourceTypes.any fun rt =>
      equalFold rt "s3" || equalFold rt "bucket" || equalFold rt "object_storage") &&
  regionsClause resource filters &&
  tagsClause resource filters &&
  createdClause resource filters

end S3Service

namespace IAMService

/-- Model of `IAMService.matchesFilters` (pkg/providers/aws/iam.go,
lines 366-404): resource-type clause over the IAM aliases, tag clause,
creation-time clauses. There is no region or status clause in the source
body. -/
def matchesFilters (resource : Resource) (filters : ResourceFilters) : Bool :=
  (filters.resourceTypes.isEmpty ||
    filters.resourceTypes.any fun rt =>
      equalFold rt "iam" || equalFold rt "iam_user" || equalFold rt "iam_role" ||
      equalFold rt "iam_policy" || equalFold rt "user" || equalFold rt "role" ||
      equalFold rt "policy") &&
  tagsClause resource filters &&
  createdClause resource filters

end IAMService

namespace RDSService

/-- Model of `RDSService.matchesFilters` (pkg/providers/aws/rds.go,
lines 288-340): resource-type clause over the RDS aliases, region clause,
tag clause, creation-time clauses. There is no status clause in the
source body. -/
def matchesFilters (resource : Resource) (filters : ResourceFilters) : Bool :=
  (filters.resourceTypes.isEmpty ||
    filters.resourceTypes.any fun rt =>
      equalFold rt "rds" || equalFold rt "rds_instance" || equalFold rt "rds_cluster" ||
      equalFold rt "database" || equalFold rt "postgres" || equalFold rt "postgresql" ||
      equalFold rt "mysql") &&
  regionsClause resource filters &&
  tagsClause resource filters &&
  createdClause resource filters

/-- Model of `RDSService.getRegionsToQuery` (pkg/providers/aws/rds.go,
lines 343-362): textually the same fallback chain as the EC2 copy. -/
def getRegionsToQuery (filterRegions configRegions : List String)
    (configRegion : String) : List String :=
  if filterRegions.length > 0 then filterRegions
  else if configRegions.length > 0 then configRegions
  else if configRegion != "" then [configRegion]
  else ["us-east-1"]

end RDSService

/-- Model of `models.GetResourceTypeFromString` (pkg/models/resource.go,
lines 83-128): each Go `case "a", "b", ...:` arm is a membership test on
its literal list, tried in source order; the default arm yields
`"unknown"` (the string of `ResourceTypeUnknown`). -/
def GetResourceTypeFromString (s : String) : String :=
  if s ∈ ["virtual_machine", "vm", "ec2", "compute_engine", "virtual_machines"] then
    "virtual_machine"
  else if s ∈ ["container", "containers", "ecs", "gke", "aci"] then "container"
  else if s ∈ ["function", "functions", "lambda", "cloud_functions", "azure_functions"] then
    "function"
  else if s ∈ ["cluster", "clusters", "eks", "gke_cluster", "aks"] then "cluster"
  else if s ∈ ["object_storage", "s3", "gcs", "blob_storage"] then "object_storage"
  else if s ∈ ["block_storage", "ebs", "persistent_disk", "managed_disk"] then "block_storage"
  else if s ∈ ["file_storage", "efs", "filestore", "azure_files"] then "file_storage"
  else if s ∈ ["database", "databases", "rds", "cloud_sql", "cosmos_db"] then "database"
  else if s ∈ ["vpc", "network", "vnet"] then "vpc"
  else if s ∈ ["subnet", "subnets"] then "subnet"
  else if s ∈ ["load_balancer", "lb", "elb", "alb", "nlb"] then "load_balancer"
  else if s ∈ ["security_group", "firewall", "nsg"] then "security_group"
  else if s ∈ ["gateway", "nat_gateway", "internet_gateway"] then "gateway"
  else if s ∈ ["user", "users"] then "user"
  else if s ∈ ["role", "roles"] then "role"
  else if s ∈ ["policy", "policies"] then "policy"
  else if s ∈ ["secret", "secrets"] then "secret"
  else if s ∈ ["metric", "metrics"] then "metric"
  else if s ∈ ["alarm", "alarms", "alert"] then "alarm"
  else if s ∈ ["dashboard", "dashboards"] then "dashboard"
  else "unknown"

/-- The canonical kind strings: the values of the `ResourceType` constants
in pkg/models/resource.go, `"unknown"` included. -/
def canonicalKinds : List String :=
  ["virtual_machine", "container", "function", "cluster",
   "object_storage", "block_storage", "file_storage", "database",
   "vpc", "subnet", "load_balancer", "security_group", "gateway",
   "user", "role", "policy", "secret",
   "metric", "alarm", "dashboard", "unknown"]

/-- Every string matched by some non-default arm of
`GetResourceTypeFromString`: the recognized enumeration. -/
def recognizedKindStrings : List String :=
  ["virtual_machine", "vm", "ec2", "compute_engine", "virtual_machines",
   "container", "containers", "ecs", "gke", "aci",
   "function", "functions", "lambda", "cloud_functions", "azure_functions",
   "cluster", "clusters", "eks", "gke_cluster", "aks",
   "object_storage", "s3", "gcs", "blob_storage",
   "block_storage", "ebs", "persistent_disk", "managed_disk",
   "file_storage", "efs", "filestore", "azure_files",
   "database", "databases", "rds", "cloud_sql", "cosmos_db",
   "vpc", "network", "vnet",
   "subnet", "subnets",
   "load_balancer", "lb", "elb", "alb", "nlb",
   "security_group", "firewall", "nsg",
   "gateway", "nat_gateway", "internet_gateway",
   "user", "users",
   "role", "roles",
   "policy", "policies",
   "secret", "secrets",
   "metric", "metrics",
   "alarm", "alarms", "alert",
   "dashboard", "dashboards"]

namespace AWSProvider

/-- The per-collector outcomes consumed by the dispatch switch of
`AWSProvider.GetResourcesByType` (pkg/providers/aws/aws.go): one
`([]Resource, error)` result per service call. -/
structure ServiceResults where
  ec2Instances : Except String (List Resource)
  s3Buckets : Except String (List Resource)
  rdsDatabases : Except String (List Resource)
  rdsClusters : Except String (List Resource)
  iamUsers : Except String (List Resource)
  iamRoles : Except String (List Resource)
  iamPolicies : Except String (List Resource)
  vpcs : Except String (List Resource)
  securityGroups : Except String (List Resource)

/-- The resource lists of the collectors that succeeded, concatenated in
order: what the fan-in loop of `GetResources` accumulates into
`allResources`, while errors go to the `errors` slice. -/
def succeededResources : List (Except String (List Resource)) → List Resource
  | [] => []
  | .ok rs :: rest => rs ++ succeededResources rest
  | .error _ :: rest => succeededResources rest

/-- Model of `AWSProvider.GetResources` (pkg/providers/aws/aws.go,
lines 132-290). The unauthenticated guard is the source's first statement;
`outcomes` lists the nine collector results in the order the fan-in loop
receives them. Collector errors are only logged: the function returns the
concatenation of the successful lists and a nil error. -/
def GetResources (authenticated : Bool)
    (outcomes : List (Except String (List Resource))) :
    Except String (List Resource) :=
  if !authenticated then .error "AWS provider is not authenticated"
  else .ok (succeededResources outcomes)

/-- Model of `AWSProvider.GetResourcesByType` (pkg/providers/aws/aws.go,
lines 293-330): unauthenticated guard, then a switch on the resource-type
string dispatching to the single matching service call. -/
def GetResourcesByType (authenticated : Bool) (resourceType : String)
    (svc : ServiceResults) : Except String (List Resource) :=
  if !authenticated then .error "AWS provider is not authenticated"
  else if resourceType ∈ ["ec2", "virtual_machine", "instance"] then svc.ec2Instances
  else if resourceType ∈ ["s3", "bucket", "object_storage"] then svc.s3Buckets
  else if resourceType ∈ ["rds", "rds_instance", "database", "postgres", "postgresql", "mysql"] then
    svc.rdsDatabases
  else if resourceType ∈ ["rds_cluster", "aurora", "cluster"] then svc.rdsClusters
  else if resourceType ∈ ["iam", "iam_user", "user"] then svc.iamUsers
  else if resourceType ∈ ["iam_role", "role"] then svc.iamRoles
  else if resourceType ∈ ["iam_policy", "policy"] then svc.iamPolicies
  else if resourceType ∈ ["vpc", "network"] then svc.vpcs
  else if resourceType ∈ ["security_group", "firewall", "sg"] then svc.securityGroups
  else .error ("unsupported resource type: " ++ resourceType)

/-- Model of `AWSProvider.GetResourceStatus` (pkg/providers/aws/aws.go,
lines 333-352): unauthenticated guard, then a sequential probe — EC2
first, S3 next, else a not-found error. -/
def GetResourceStatus (authenticated : Bool) (resourceID : String)
    (ec2Probe s3Probe : Except String ResourceStatus) :
    Except String ResourceStatus :=
  if !authenticated then .error "AWS provider is not authenticated"
  else
    match ec2Probe with
    | .ok st => .ok st
    | .error _ =>
      match s3Probe with
      | .ok st => .ok st
      | .error _ => .error ("resource " ++ resourceID ++ " not found")

end AWSProvider

namespace PluginRegistry

/-- The only capability of a registered provider the registry reads during
`Register`: its `Name()`. -/
structure CloudProvider where
  name : String
deriving DecidableEq, Repr

/-- The registry's provider map, an association list standing for the Go
`map[string]CloudProvider` of pkg/providers/registry.go (entries keyed by
provider name, keys unique by construction of `Register`). -/
abbrev Registry := List (String × CloudProvider)

/-- Model of `PluginRegistry.Register` (pkg/providers/registry.go,
lines 27-48). The Go method mutates `r.providers` only on success; here
the pair returns the error (if any) alongside the resulting map state. A
nil provider is `none`. -/
def Register (reg : Registry) (provider : Option CloudProvider) :
    Option String × Registry :=
  match provider with
  | none => (some "provider cannot be nil", reg)
  | some p =>
    if p.name = "" then (some "provider name cannot be empty", reg)
    else if (List.lookup p.name reg).isSome then
      (some ("provider " ++ p.name ++ " already registered"), reg)
    else (none, reg ++ [(p.name, p)])

/-- Model of `PluginRegistry.List` (pkg/providers/registry.go,
lines 79-90): collect the map's keys (the Go map yields them in an
arbitrary order; the model uses the list's order) and sort them with
`sort.Strings`, i.e. ascending lexicographic order. -/
def List' (reg : Registry) : List String :=
  List.insertionSort (· ≤ ·) (reg.map Prod.fst)

end PluginRegistry

/-- A concrete resource used by witnesses and counterexamples: tagless,
with the given state and creation instant. -/
def mkResource (id region state : String) (createdAt : Int) : Resource :=
  { id := id, name := id, type := "virtual_machine", provider := "aws",
    region := region,
    status := { state := state, health := "unknown", lastChecked := 0 },
    tags := [], createdAt := createdAt, updatedAt := 0 }

/-- The fan-in accumulation of the successful collector outputs equals the
flattening of the `Except.toOption` survivors. -/
theorem succeededResources_eq_join (outcomes : List (Except String (List Resource))) :
    AWSProvider.succeededResources outcomes =
      (outcomes.filterMap Except.toOption).flatten := by
  induction outcomes with
  | nil => rfl
  | cons o rest ih =>
    cases o with
    | ok rs => simp [AWSProvider.succeededResources, Except.toOption, ih]
    | error e => simp [AWSProvider.succeededResources, Except.toOption, ih]


/-- C1: with the provider authenticated, a collector error among the
fan-out outcomes is never propagated: `GetResources` returns the
concatenation of the successful collectors' resource lists and a nil
error (`Except.ok`). -/
theorem getResources_partial_failure
    (outcomes : List (Except String (List Resource))) (e : String)
    (hfail : Except.error e ∈ outcomes) :
    AWSProvider.GetResources true outcomes =
      Except.ok ((outcomes.filterMap Except.toOption).flatten) := by
  simp [AWSProvider.GetResources, succeededResources_eq_join]

/-- Witness for C1 at a concrete outcome list: the second collector fails,
the first and third succeed, and the call returns exactly their
concatenation with a nil error. -/
theorem getResources_partial_failure_witness :
    Except.error "boom" ∈
      [Except.ok [mkResource "i-1" "us-east-1" "running" 5],
       Except.error "boom",
       Except.ok [mkResource "b-1" "us-west-2" "available" 7]] ∧
    AWSProvider.GetResources true
      [Except.ok [mkResource "i-1" "us-east-1" "running" 5],
       Except.error "boom",
       Except.ok [mkResource "b-1" "us-west-2" "available" 7]] =
      Except.ok [mkResource "i-1" "us-east-1" "running" 5,
                 mkResource "b-1" "us-west-2" "available" 7] :=
  ⟨by simp, by
    rw [getResources_partial_failure _ "boom" (by simp)]
    rfl⟩

/-- C4: on an unauthenticated provider, `GetResources`,
`GetResourcesByType` and `GetResourceStatus` all return the
"not authenticated" error whatever the collectors would have produced:
no collector outcome influences the result. -/
theorem unauthenticated_calls_fail_fast
    (outcomes : List (Except String (List Resource)))
    (resourceType : String) (svc : AWSProvider.ServiceResults)
    (resourceID : String) (ec2Probe s3Probe : Except String ResourceStatus) :
    AWSProvider.GetResources false outcomes =
        Except.error "AWS provider is not authenticated" ∧
    AWSProvider.GetResourcesByType false resourceType svc =
        Except.error "AWS provider is not authenticated" ∧
    AWSProvider.GetResourceStatus false resourceID ec2Probe s3Probe =
        Except.error "AWS provider is not authenticated" :=
  ⟨rfl, rfl, rfl⟩

/-- C2 counterexample: a resource whose `createdAt` equals the
`createdAfter` bound exactly (and another equalling the `createdBefore`
bound) passes the EC2 and S3 predicates — the code rejects only strictly
earlier (resp. strictly later) instants, so boundary equality is
included, refuting the claimed strict exclusion. -/
theorem created_boundary_counterexample :
    EC2Service.matchesFilters (mkResource "i-1" "us-east-1" "running" 100)
      { emptyFilters with createdAfter := some 100 } = true ∧
    S3Service.matchesFilters (mkResource "b-1" "us-east-1" "available" 100)
      { emptyFilters with createdAfter := some 100 } = true ∧
    EC2Service.matchesFilters (mkResource "i-1" "us-east-1" "running" 100)
      { emptyFilters with createdBefore := some 100 } = true ∧
    S3Service.matchesFilters (mkResource "b-1" "us-east-1" "available" 100)
      { emptyFilters with createdBefore := some 100 } = true ∧
    (mkResource "i-1" "us-east-1" "running" 100).createdAt = 100 := by
  refine ⟨?_, ?_, ?_, ?_, rfl⟩ <;> decide

/-- C2 amended: the creation window is closed at both ends. With both
bounds set, every collector predicate rejects a resource strictly outside
`[createdAfter, createdBefore]`; and a resource inside the closed window
(bound equality included) passes when the window is the only constraint. -/
theorem matchesFilters_created_window_closed
    (r : Resource) (f : ResourceFilters) (ta tb : Int)
    (ha : f.createdAfter = some ta) (hb : f.createdBefore = some tb) :
    ((r.createdAt < ta ∨ tb < r.createdAt) →
      EC2Service.matchesFilters r f = false ∧
      S3Service.matchesFilters r f = false ∧
      IAMService.matchesFilters r f = false ∧
      RDSService.matchesFilters r f = false) ∧
    (ta ≤ r.createdAt → r.createdAt ≤ tb →
      EC2Service.matchesFilters r
        { emptyFilters with createdAfter := some ta, createdBefore := some tb } = true ∧
      S3Service.matchesFilters r
        { emptyFilters with createdAfter := some ta, createdBefore := some tb } = true ∧
      IAMService.matchesFilters r
        { emptyFilters with createdAfter := some ta, createdBefore := some tb } = true ∧
      RDSService.matchesFilters r
        { emptyFilters with createdAfter := some ta, createdBefore := some tb } = true) := by
  constructor
  · intro hout
    refine ⟨?_, ?_, ?_, ?_⟩ <;>
      simp [EC2Service.matchesFilters, S3Service.matchesFilters,
            IAMService.matchesFilters, RDSService.matchesFilters,
            createdClause, ha, hb] <;>
      omega
  · intro h1 h2
    refine ⟨?_, ?_, ?_, ?_⟩ <;>
      simp [EC2Service.matchesFilters, S3Service.matchesFilters,
            IAMService.matchesFilters, RDSService.matchesFilters,
            createdClause, regionsClause, tagsClause, emptyFilters] <;>
      omega

/-- Witness for C2's amended theorem at the boundary: with
`createdAfter = createdBefore = 100` and `createdAt = 100`, all four
predicates accept the resource. -/
theorem matchesFilters_created_window_closed_witness :
    EC2Service.matchesFilters (mkResource "i-9" "eu-west-1" "running" 100)
      { emptyFilters with createdAfter := some 100, createdBefore := some 100 } = true ∧
    S3Service.matchesFilters (mkResource "i-9" "eu-west-1" "running" 100)
      { emptyFilters with createdAfter := some 100, createdBefore := some 100 } = true := by
  have h := (matchesFilters_created_window_closed
    (mkResource "i-9" "eu-west-1" "running" 100)
    { emptyFilters with createdAfter := some 100, createdBefore := some 100 }
    100 100 rfl rfl).2 (by decide) (by decide)
  exact ⟨h.1, h.2.1⟩

/-- C3 counterexample: with `filters.statuses = ["running"]` and a
resource whose state is `"available"`, the S3, IAM and RDS post-fetch
predicates all return `true` even though the state is not a member of the
filter's status set — the predicates contain no status clause. -/
theorem status_clause_counterexample :
    S3Service.matchesFilters (mkResource "b-1" "us-east-1" "available" 0)
      { emptyFilters with status := ["running"] } = true ∧
    IAMService.matchesFilters (mkResource "u-1" "global" "available" 0)
      { emptyFilters with status := ["running"] } = true ∧
    RDSService.matchesFilters (mkResource "db-1" "us-east-1" "available" 0)
      { emptyFilters with status := ["running"] } = true ∧
    (mkResource "b-1" "us-east-1" "available" 0).status.state ∉
      ({ emptyFilters with status := ["running"] } : ResourceFilters).status := by
  refine ⟨?_, ?_, ?_, ?_⟩ <;> decide

/-- C3 amended: no post-fetch `matchesFilters` predicate has a status
clause — the value of each is independent of `filters.status` (and so a
resource can pass with a state outside the status set). Status filtering
exists only in the EC2 collector, which pushes the status list into the
server-side API filter `instance-state-name` via `buildEC2Filters`. -/
theorem matchesFilters_ignores_status
    (r : Resource) (f : ResourceFilters) (sts : List String)
    (hsts : sts ≠ []) :
    S3Service.matchesFilters r { f with status := sts } =
        S3Service.matchesFilters r f ∧
    IAMService.matchesFilters r { f with status := sts } =
        IAMService.matchesFilters r f ∧
    RDSService.matchesFilters r { f with status := sts } =
        RDSService.matchesFilters r f ∧
    EC2Service.matchesFilters r { f with status := sts } =
        EC2Service.matchesFilters r f ∧
    ({ name := "instance-state-name", values := sts } : EC2Service.EC2Filter) ∈
      EC2Service.buildEC2Filters { f with status := sts } := by
  refine ⟨rfl, rfl, rfl, rfl, ?_⟩
  have hpos : 0 < sts.length := List.length_pos.mpr hsts
  simp [EC2Service.buildEC2Filters, hpos]

/-- Witness for C3's amended theorem at a concrete resource and a
one-element status set. -/
theorem matchesFilters_ignores_status_witness :
    S3Service.matchesFilters (mkResource "b-2" "us-east-1" "available" 3)
        { emptyFilters with status := ["stopped"] } =
      S3Service.matchesFilters (mkResource "b-2" "us-east-1" "available" 3) emptyFilters ∧
    ({ name := "instance-state-name", values := ["stopped"] } : EC2Service.EC2Filter) ∈
      EC2Service.buildEC2Filters { emptyFilters with status := ["stopped"] } := by
  have h := matchesFilters_ignores_status
    (mkResource "b-2" "us-east-1" "available" 3) emptyFilters ["stopped"] (by decide)
  exact ⟨h.1, h.2.2.2.2⟩

/-- C5: region resolution in both the EC2 and RDS copies is the
deterministic four-step fallback chain — filter regions if non-empty,
else config region list if non-empty, else the single default region if
non-empty, else exactly `["us-east-1"]`. -/
theorem getRegionsToQuery_fallback_chain
    (fr cr : List String) (dr : String) :
    (fr ≠ [] →
      EC2Service.getRegionsToQuery fr cr dr = fr ∧
      RDSService.getRegionsToQuery fr cr dr = fr) ∧
    (fr = [] → cr ≠ [] →
      EC2Service.getRegionsToQuery fr cr dr = cr ∧
      RDSService.getRegionsToQuery fr cr dr = cr) ∧
    (fr = [] → cr = [] → dr ≠ "" →
      EC2Service.getRegionsToQuery fr cr dr = [dr] ∧
      RDSService.getRegionsToQuery fr cr dr = [dr]) ∧
    (fr = [] → cr = [] → dr = "" →
      EC2Service.getRegionsToQuery fr cr dr = ["us-east-1"] ∧
      RDSService.getRegionsToQuery fr cr dr = ["us-east-1"]) := by
  refine ⟨?_, ?_, ?_, ?_⟩
  · intro h
    constructor <;>
      simp [EC2Service.getRegionsToQuery, RDSService.getRegionsToQuery,
            List.length_pos, h]
  · intro h1 h2
    subst h1
    constructor <;>
      simp [EC2Service.getRegionsToQuery, RDSService.getRegionsToQuery,
            List.length_pos, h2]
  · intro h1 h2 h3
    subst h1; subst h2
    constructor <;>
      simp [EC2Service.getRegionsToQuery, RDSService.getRegionsToQuery, h3]
  · intro h1 h2 h3
    subst h1; subst h2; subst h3
    constructor <;> rfl

/-- Witness for C5 at the two instances named by the claim: empty filter
and config lists with default region `"x"` resolve to `["x"]`, and the
all-empty case resolves to the hardcoded `["us-east-1"]`. -/
theorem getRegionsToQuery_fallback_chain_witness :
    EC2Service.getRegionsToQuery [] [] "x" = ["x"] ∧
    EC2Service.getRegionsToQuery [] [] "" = ["us-east-1"] ∧
    RDSService.getRegionsToQuery [] [] "x" = ["x"] :=
  ⟨((getRegionsToQuery_fallback_chain [] [] "x").2.2.1 rfl rfl (by decide)).1,
   ((getRegionsToQuery_fallback_chain [] [] "").2.2.2 rfl rfl rfl).1,
   ((getRegionsToQuery_fallback_chain [] [] "x").2.2.1 rfl rfl (by decide)).2⟩

/-- C6: kind normalization is idempotent on every canonical kind string,
the aliases `"ec2"`, `"vm"`, `"virtual_machines"` all converge to the one
canonical kind `"virtual_machine"`, and every string outside the
recognized enumeration normalizes to `"unknown"`. -/
theorem resourceType_normalization :
    (∀ k, k ∈ canonicalKinds → GetResourceTypeFromString k = k) ∧
    (GetResourceTypeFromString "virtual_machine" = "virtual_machine" ∧
     GetResourceTypeFromString "ec2" = "virtual_machine" ∧
     GetResourceTypeFromString "vm" = "virtual_machine" ∧
     GetResourceTypeFromString "virtual_machines" = "virtual_machine") ∧
    (∀ s, s ∉ recognizedKindStrings → GetResourceTypeFromString s = "unknown") := by
  refine ⟨by decide, ⟨rfl, rfl, rfl, rfl⟩, ?_⟩
  intro s hs
  simp only [recognizedKindStrings, List.mem_cons, List.not_mem_nil,
    or_false, not_or] at hs
  simp only [GetResourceTypeFromString, List.mem_cons, List.not_mem_nil, or_false]
  simp [hs]

/-- Witness for C6: idempotence applied at the canonical `"database"`,
and the unrecognized string `"zzz"` normalizing to `"unknown"`. -/
theorem resourceType_normalization_witness :
    ("database" ∈ canonicalKinds ∧ GetResourceTypeFromString "database" = "database") ∧
    ("zzz" ∉ recognizedKindStrings ∧ GetResourceTypeFromString "zzz" = "unknown") :=
  ⟨⟨by decide, resourceType_normalization.1 "database" (by decide)⟩,
   ⟨by decide, resourceType_normalization.2.2 "zzz" (by decide)⟩⟩

/-- C7: the EC2 state-to-health mapping is a total deterministic function
of the state string — `"running"` is healthy, `"stopped"` unhealthy,
`"pending"` warning, and every state outside the switch's table maps to
`"unknown"`. -/
theorem instance_health_mapping :
    EC2Service.mapInstanceHealthToHealth "running" = "healthy" ∧
    EC2Service.mapInstanceHealthToHealth "stopped" = "unhealthy" ∧
    EC2Service.mapInstanceHealthToHealth "pending" = "warning" ∧
    (∀ s, s ∉ EC2Service.instanceStateTable →
      EC2Service.mapInstanceHealthToHealth s = "unknown") := by
  refine ⟨rfl, rfl, rfl, ?_⟩
  intro s hs
  simp only [EC2Service.instanceStateTable, List.mem_cons, List.not_mem_nil,
    or_false, not_or] at hs
  simp [EC2Service.mapInstanceHealthToHealth, hs]

/-- Witness for C7: the unrecognized state `"rebooting"` maps to
`"unknown"`. -/
theorem instance_health_mapping_witness :
    "rebooting" ∉ EC2Service.instanceStateTable ∧
    EC2Service.mapInstanceHealthToHealth "rebooting" = "unknown" :=
  ⟨by decide, instance_health_mapping.2.2.2 "rebooting" (by decide)⟩

/-- C8: the empty filter set is an identity for filtering — every
collector's post-fetch predicate accepts every resource when no
constraint is set. -/
theorem empty_filters_identity (r : Resource) :
    EC2Service.matchesFilters r emptyFilters = true ∧
    S3Service.matchesFilters r emptyFilters = true ∧
    IAMService.matchesFilters r emptyFilters = true ∧
    RDSService.matchesFilters r emptyFilters = true :=
  ⟨rfl, rfl, rfl, rfl⟩

/-- C9: `Register` fails on a nil provider and on a duplicate name,
leaving the provider map unchanged in both cases; a successful `Register`
appends exactly the one new entry. -/
theorem register_append_only
    (reg : PluginRegistry.Registry) (p : PluginRegistry.CloudProvider) :
    ((PluginRegistry.Register reg none).1.isSome = true ∧
      (PluginRegistry.Register reg none).2 = reg) ∧
    ((List.lookup p.name reg).isSome →
      (PluginRegistry.Register reg (some p)).1.isSome = true ∧
      (PluginRegistry.Register reg (some p)).2 = reg) ∧
    (p.name ≠ "" → (List.lookup p.name reg).isSome = false →
      (PluginRegistry.Register reg (some p)).1 = none ∧
      (PluginRegistry.Register reg (some p)).2 = reg ++ [(p.name, p)]) := by
  refine ⟨⟨rfl, rfl⟩, ?_, ?_⟩
  · intro hdup
    unfold PluginRegistry.Register
    by_cases hname : p.name = "" <;> simp [hname, hdup]
  · intro hname hfresh
    unfold PluginRegistry.Register
    simp [hname, hfresh]

/-- Witness for C9: registering `"aws"` twice — the first call appends the
single entry, the second leaves the one-entry map unchanged and errors. -/
theorem register_append_only_witness :
    (PluginRegistry.Register [] (some ⟨"aws"⟩)).1 = none ∧
    (PluginRegistry.Register [] (some ⟨"aws"⟩)).2 = [("aws", ⟨"aws"⟩)] ∧
    (PluginRegistry.Register [("aws", ⟨"aws"⟩)] (some ⟨"aws"⟩)).1.isSome = true ∧
    (PluginRegistry.Register [("aws", ⟨"aws"⟩)] (some ⟨"aws"⟩)).2 = [("aws", ⟨"aws"⟩)] := by
  have h1 := (register_append_only [] ⟨"aws"⟩).2.2 (by decide) (by decide)
  have h2 := (register_append_only [("aws", ⟨"aws"⟩)] ⟨"aws"⟩).2.1 (by decide)
  exact ⟨h1.1, h1.2, h2.1, h2.2⟩

/-- C10: `List` returns the registered names sorted in ascending
lexicographic order: its output is sorted, is a permutation of the map's
keys, and is identical for any two registries holding the same keys —
deterministic regardless of registration order. -/
theorem registry_list_sorted (reg reg' : PluginRegistry.Registry) :
    (PluginRegistry.List' reg).Sorted (· ≤ ·) ∧
    (PluginRegistry.List' reg).Perm (reg.map Prod.fst) ∧
    ((reg.map Prod.fst).Perm (reg'.map Prod.fst) →
      PluginRegistry.List' reg = PluginRegistry.List' reg') := by
  refine ⟨List.sorted_insertionSort _ _, List.perm_insertionSort _ _, ?_⟩
  intro hperm
  exact List.eq_of_perm_of_sorted
    ((List.perm_insertionSort _ _).trans
      (hperm.trans (List.perm_insertionSort _ _).symm))
    (List.sorted_insertionSort _ _) (List.sorted_insertionSort _ _)

/-- Witness for C10: two registries with the same two providers
registered in opposite orders produce the same sorted name list. -/
theorem registry_list_sorted_witness :
    PluginRegistry.List' [("gcp", ⟨"gcp"⟩), ("aws", ⟨"aws"⟩)] =
      PluginRegistry.List' [("aws", ⟨"aws"⟩), ("gcp", ⟨"gcp"⟩)] ∧
    PluginRegistry.List' [("gcp", ⟨"gcp"⟩), ("aws", ⟨"aws"⟩)] = ["aws", "gcp"] :=
  ⟨(registry_list_sorted [("gcp", ⟨"gcp"⟩), ("aws", ⟨"aws"⟩)]
      [("aws", ⟨"aws"⟩), ("gcp", ⟨"gcp"⟩)]).2.2 (by decide),
   by
    simp [PluginRegistry.List', List.insertionSort, List.orderedInsert]
    decide⟩
